import Mathlib

/-!
Formal model of the report generators and the dispatcher of the iOS
enterprise support backend (backend/app.py and backend/scripts/).

Each generator is a pure function of a device identifier, a timestamp and
an explicit record of the random draws the script makes; the Python
`random` calls become fields of a draw record, and a `valid` predicate
records the range each draw is taken from.  Python `round(x, n)` on
nonnegative values is modelled on exact rationals as `roundTo n`, with
half-up ties (Mathlib `round`).  Date/time values enter the logic only
through day differences, which are modelled directly as integers.
-/

namespace IosSupport

/-- Python round(x, n) modelled on rationals: round to n decimal places. -/
def roundTo (n : ℕ) (x : ℚ) : ℚ :=
  ((round (x * (10 : ℚ) ^ n) : ℤ) : ℚ) / (10 : ℚ) ^ n

/-! ## network_validator.py : NetworkValidator -/

/-- Status drawn for Corporate_VPN by random.choice. -/
inductive CorpVpnStatus
  | connected
  | disconnected
  | error
  deriving DecidableEq, Repr

def CorpVpnStatus.str : CorpVpnStatus → String
  | .connected => "connected"
  | .disconnected => "disconnected"
  | .error => "error"

/-- Random draws made by one NetworkValidator run.  The strings stand for
the randomly generated dotted-quad addresses of resolved test domains. -/
structure NetworkDraws where
  wifi_connected : Bool
  signal_strength : Int
  ssid_present : Bool
  ip_present : Bool
  ip_last : ℕ
  corp_vpn_status : CorpVpnStatus
  internal_resolves : Bool
  mdm_resolves : Bool
  ip_apple : String
  ip_internal : String
  ip_mdm : String
  deriving DecidableEq, Repr

/-- Ranges of the random draws in check_wifi_connectivity. -/
def NetworkDraws.valid (d : NetworkDraws) : Bool :=
  decide (-80 ≤ d.signal_strength) && decide (d.signal_strength ≤ -30) &&
  decide (2 ≤ d.ip_last) && decide (d.ip_last ≤ 254)

structure NetIssue where
  category : String
  severity : String
  message : String
  solution : String
  deriving DecidableEq, Repr

structure NetRec where
  action : String
  priority : String
  steps : List String
  deriving DecidableEq, Repr

structure WifiStatus where
  connected : Bool
  signal_strength : Int
  ssid : Option String
  ip_address : Option String
  deriving DecidableEq, Repr

structure VpnConfig where
  name : String
  status : String
  protocol : String
  server : String
  deriving DecidableEq, Repr

structure DnsResult where
  domain : String
  status : String
  ip : Option String
  error : Option String
  deriving DecidableEq, Repr

def check_wifi_connectivity (d : NetworkDraws) : WifiStatus × List NetIssue :=
  let wifi_status : WifiStatus :=
    { connected := d.wifi_connected
      signal_strength := d.signal_strength
      ssid := if d.ssid_present then some "Corporate_WiFi" else none
      ip_address :=
        if d.ip_present then some ("192.168.1." ++ toString d.ip_last) else none }
  let issues : List NetIssue :=
    if !d.wifi_connected then
      [{ category := "Wi-Fi", severity := "high"
         message := "Device not connected to Wi-Fi"
         solution := "Connect to corporate Wi-Fi network Corp-Employee" }]
    else if d.signal_strength < -70 then
      [{ category := "Wi-Fi", severity := "medium"
         message := "Weak Wi-Fi signal (" ++ toString d.signal_strength ++ " dBm)"
         solution := "Move closer to access point or restart Wi-Fi" }]
    else []
  (wifi_status, issues)

def vpn_configs (d : NetworkDraws) : List VpnConfig :=
  [{ name := "Corporate_VPN", status := d.corp_vpn_status.str
     protocol := "IKEv2", server := "vpn.company.com" },
   { name := "Backup_VPN", status := "disabled"
     protocol := "IPSec", server := "vpn-backup.company.com" }]

/-- Body of the for-loop over vpn_configs: the issue appended for one entry. -/
def vpnStepIssues (v : VpnConfig) : List NetIssue :=
  if v.status == "error" then
    [{ category := "VPN", severity := "high"
       message := "VPN " ++ v.name ++ " configuration error"
       solution := "Reinstall VPN profile from Company Portal app" }]
  else []

/-- Body of the for-loop over vpn_configs: the recommendation appended
for one entry (the elif branch). -/
def vpnStepRecs (v : VpnConfig) : List NetRec :=
  if v.status == "error" then []
  else if v.status == "disconnected" && v.name == "Corporate_VPN" then
    [{ action := "Connect VPN", priority := "high"
       steps := ["Open Settings > VPN", "Toggle Corporate_VPN to ON",
                 "Enter credentials if prompted"] }]
  else []

def check_vpn_configuration (d : NetworkDraws) :
    List VpnConfig × List NetIssue × List NetRec :=
  let configs := vpn_configs d
  (configs, configs.flatMap vpnStepIssues, configs.flatMap vpnStepRecs)

def dns_servers : List String := ["8.8.8.8", "8.8.4.4", "10.0.0.1", "10.0.0.2"]

def test_domains (d : NetworkDraws) : List (String × Bool × String) :=
  [("apple.com", true, d.ip_apple),
   ("company.internal", d.internal_resolves, d.ip_internal),
   ("mdm.company.com", d.mdm_resolves, d.ip_mdm)]

def dnsResultOf (t : String × Bool × String) : DnsResult :=
  if t.2.1 then
    { domain := t.1, status := "resolved", ip := some t.2.2, error := none }
  else
    { domain := t.1, status := "failed", ip := none, error := some "NXDOMAIN" }

def dnsIssueOf (t : String × Bool × String) : List NetIssue :=
  if !t.2.1 && t.1 == "company.internal" then
    [{ category := "DNS", severity := "high"
       message := "Cannot resolve internal domain: " ++ t.1
       solution :=
         "Update DNS settings to use corporate DNS servers: 10.0.0.1, 10.0.0.2" }]
  else []

def check_dns_settings (d : NetworkDraws) :
    (List String × List DnsResult) × List NetIssue :=
  ((dns_servers, (test_domains d).map dnsResultOf),
   (test_domains d).flatMap dnsIssueOf)

structure NetworkSummary where
  status : String
  total_checks : ℕ
  passed_checks : Int
  failed_checks : ℕ
  deriving DecidableEq, Repr

/-- Full report of generate_health_report.  The quick_fixes key, absent
when no issue was found, is modelled as an empty list. -/
structure NetworkReport where
  device_id : String
  timestamp : String
  health_score : Int
  issues : List NetIssue
  recommendations : List NetRec
  wifi : WifiStatus
  vpn_configurations : List VpnConfig
  dns_servers : List String
  resolution_tests : List DnsResult
  summary : NetworkSummary
  quick_fixes : List String
  deriving DecidableEq, Repr

def generate_health_report (device_id timestamp : String) (d : NetworkDraws) :
    NetworkReport :=
  let w := check_wifi_connectivity d
  let v := check_vpn_configuration d
  let dns := check_dns_settings d
  let issues := w.2 ++ v.2.1 ++ dns.2
  let issue_count := issues.length
  let health_score : Int := max 0 (100 - (issue_count : Int) * 20)
  { device_id := device_id
    timestamp := timestamp
    health_score := health_score
    issues := issues
    recommendations := v.2.2
    wifi := w.1
    vpn_configurations := v.1
    dns_servers := dns.1.1
    resolution_tests := dns.1.2
    summary :=
      { status :=
          if health_score ≥ 80 then "HEALTHY"
          else if health_score ≥ 50 then "NEEDS_ATTENTION"
          else "UNHEALTHY"
        total_checks := 3
        passed_checks := 3 - (issue_count : Int)
        failed_checks := issue_count }
    quick_fixes :=
      if issue_count > 0 then
        ["Restart Wi-Fi: Turn off/on Wi-Fi in Settings",
         "Forget and rejoin corporate network",
         "Restart device if issues persist"]
      else [] }

/-! ## mdm_checker.py : MDMComplianceChecker -/

structure SecurityRequirements where
  passcode_required : Bool
  min_passcode_length : ℕ
  auto_lock_minutes : ℕ
  encryption_enabled : Bool
  jailbreak_detection : Bool
  deriving DecidableEq, Repr

structure ComplianceRules where
  required_profiles : List String
  security_requirements : SecurityRequirements
  app_requirements : List String
  deriving DecidableEq, Repr

def compliance_rules : ComplianceRules :=
  { required_profiles :=
      ["Corporate_MDM", "VPN_Configuration", "Wi-Fi_Certificate",
       "Email_Profile"]
    security_requirements :=
      { passcode_required := true, min_passcode_length := 6
        auto_lock_minutes := 5, encryption_enabled := true
        jailbreak_detection := true }
    app_requirements :=
      ["Company_Portal", "Authenticator", "Secure_Mail", "VPN_Client"] }

/-- Device profile.  The source stores an ISO expiry timestamp and the
compliance loop later uses only (expiry - now).days; that day difference
is modelled directly as days_until_expiry. -/
structure Profile where
  name : String
  installed : Bool
  days_until_expiry : Int
  organization : String
  identifier : String
  deriving DecidableEq, Repr

structure ProfileDraw where
  installed : Bool
  days_until_expiry : Int
  deriving DecidableEq, Repr

structure SecurityDraws where
  passcode_enabled : Bool
  passcode_length : ℕ
  complexity : String
  auto_lock_minutes : ℕ
  data_protection : Bool
  jailbroken : Bool
  os_choice : String
  model_choice : String
  deriving DecidableEq, Repr

/-- Random draws made by one MDMComplianceChecker run.  Email_Profile is
always installed in the source, so only its expiry offset is drawn. -/
structure MdmDraws where
  corporate_mdm : ProfileDraw
  vpn_configuration : ProfileDraw
  email_profile_days : Int
  wifi_certificate : ProfileDraw
  security_policy : ProfileDraw
  security : SecurityDraws
  company_portal : Bool
  authenticator : Bool
  secure_mail : Bool
  vpn_client : Bool
  deriving DecidableEq, Repr

/-- Draw ranges.  Each days_until_expiry range is the randint range of the
expiry offset widened by one below, because the day difference is
recomputed against a strictly later now() in the source. -/
def MdmDraws.valid (d : MdmDraws) : Bool :=
  decide (-11 ≤ d.corporate_mdm.days_until_expiry) &&
  decide (d.corporate_mdm.days_until_expiry ≤ 90) &&
  decide (29 ≤ d.vpn_configuration.days_until_expiry) &&
  decide (d.vpn_configuration.days_until_expiry ≤ 365) &&
  decide (59 ≤ d.email_profile_days) && decide (d.email_profile_days ≤ 365) &&
  decide (-6 ≤ d.wifi_certificate.days_until_expiry) &&
  decide (d.wifi_certificate.days_until_expiry ≤ 180) &&
  decide (99 ≤ d.security_policy.days_until_expiry) &&
  decide (d.security_policy.days_until_expiry ≤ 365) &&
  decide (4 ≤ d.security.passcode_length) &&
  decide (d.security.passcode_length ≤ 8) &&
  ["none", "numeric", "alphanumeric"].contains d.security.complexity &&
  [1, 2, 5, 10, 30].contains d.security.auto_lock_minutes &&
  ["16.7", "17.2", "17.3", "17.4"].contains d.security.os_choice &&
  ["iPhone 14 Pro", "iPhone 15", "iPhone 13", "iPad Pro"].contains
    d.security.model_choice

def simulate_device_profiles (d : MdmDraws) : List Profile :=
  [{ name := "Corporate_MDM", installed := d.corporate_mdm.installed
     days_until_expiry := d.corporate_mdm.days_until_expiry
     organization := "IT Department", identifier := "com.company.mdm.profile" },
   { name := "VPN_Configuration", installed := d.vpn_configuration.installed
     days_until_expiry := d.vpn_configuration.days_until_expiry
     organization := "Network Team", identifier := "com.company.vpn.profile" },
   { name := "Email_Profile", installed := true
     days_until_expiry := d.email_profile_days
     organization := "Exchange Team"
     identifier := "com.company.email.profile" },
   { name := "Wi-Fi_Certificate", installed := d.wifi_certificate.installed
     days_until_expiry := d.wifi_certificate.days_until_expiry
     organization := "Security Team", identifier := "com.company.wifi.cert" },
   { name := "Security_Policy", installed := d.security_policy.installed
     days_until_expiry := d.security_policy.days_until_expiry
     organization := "Compliance Office"
     identifier := "com.company.security.policy" }]

structure PasscodeStatus where
  enabled : Bool
  length : ℕ
  complexity : String
  deriving DecidableEq, Repr

structure AutoLockStatus where
  enabled : Bool
  minutes : ℕ
  deriving DecidableEq, Repr

structure EncryptionStatus where
  data_protection : Bool
  filevault : Bool
  deriving DecidableEq, Repr

structure DeviceStatus where
  jailbroken : Bool
  os_version : String
  model : String
  deriving DecidableEq, Repr

structure SecurityStatus where
  passcode : PasscodeStatus
  auto_lock : AutoLockStatus
  encryption : EncryptionStatus
  device : DeviceStatus
  deriving DecidableEq, Repr

def check_security_compliance (d : MdmDraws) : SecurityStatus :=
  { passcode :=
      { enabled := d.security.passcode_enabled
        length := d.security.passcode_length
        complexity := d.security.complexity }
    auto_lock := { enabled := true, minutes := d.security.auto_lock_minutes }
    encryption :=
      { data_protection := d.security.data_protection, filevault := true }
    device :=
      { jailbroken := d.security.jailbroken
        os_version := "iOS " ++ d.security.os_choice
        model := d.security.model_choice } }

structure CorpApp where
  name : String
  installed : Bool
  version : String
  deriving DecidableEq, Repr

def check_app_compliance (d : MdmDraws) : List CorpApp :=
  [{ name := "Company_Portal", installed := d.company_portal, version := "4.8.1" },
   { name := "Authenticator", installed := d.authenticator, version := "6.7.2" },
   { name := "Secure_Mail", installed := d.secure_mail, version := "5.3.0" },
   { name := "VPN_Client", installed := d.vpn_client, version := "3.2.1" },
   { name := "Teams", installed := true, version := "5.9.1" },
   { name := "OneDrive", installed := true, version := "14.8.1" }]

/-- Compliance issues are heterogeneous dicts in the source; the three
shapes appended by run_compliance_check become three constructors. -/
inductive MdmIssue
  | missing_profile (profile : String) (severity : String) (action : String)
  | expiring_profile (profile : String) (days_remaining : Int)
      (severity : String) (action : String)
  | security (issue : String) (severity : String) (action : String)
  deriving DecidableEq, Repr

def MdmIssue.severity : MdmIssue → String
  | .missing_profile _ s _ => s
  | .expiring_profile _ _ s _ => s
  | .security _ s _ => s

structure MdmRec where
  type : String
  app : String
  priority : String
  action : String
  link : String
  deriving DecidableEq, Repr

structure MdmSummary where
  total_checks : ℕ
  passed_checks : Int
  failed_checks : ℕ
  critical_issues : ℕ
  high_priority : ℕ
  deriving DecidableEq, Repr

structure MdmReport where
  device_id : String
  timestamp : String
  compliance_score : Int
  status : String
  profiles : List Profile
  security : SecurityStatus
  apps : List CorpApp
  issues : List MdmIssue
  recommendations : List MdmRec
  summary : MdmSummary
  deriving DecidableEq, Repr

def run_compliance_check (device_id timestamp : String) (d : MdmDraws) :
    MdmReport :=
  let profiles := simulate_device_profiles d
  let security := check_security_compliance d
  let apps := check_app_compliance d
  let required_profiles := compliance_rules.required_profiles
  let installed_profiles := (profiles.filter (·.installed)).map (·.name)
  let missing_issues : List MdmIssue := required_profiles.flatMap fun required =>
    if required ∉ installed_profiles then
      [.missing_profile required "high"
        ("Install " ++ required ++ " profile from Company Portal")]
    else []
  let expiring_issues : List MdmIssue := profiles.flatMap fun profile =>
    if profile.installed then
      if profile.days_until_expiry < 30 then
        [.expiring_profile profile.name profile.days_until_expiry
          (if profile.days_until_expiry > 7 then "medium" else "high")
          ("Renew " ++ profile.name ++ " profile before expiry")]
      else []
    else []
  let security_issues : List MdmIssue :=
    (if !security.passcode.enabled then
      [.security "Passcode not enabled" "critical"
        "Enable passcode in Settings > Face ID and Passcode"]
     else []) ++
    (if security.passcode.length < 6 then
      [.security
        ("Passcode too short (" ++ toString security.passcode.length ++
          " characters)") "high"
        "Increase passcode length to at least 6 characters"]
     else []) ++
    (if security.device.jailbroken then
      [.security "Device is jailbroken" "critical"
        "Contact IT security immediately. Jailbroken devices cannot access corporate resources."]
     else [])
  let compliance_issues := missing_issues ++ expiring_issues ++ security_issues
  let required_apps := compliance_rules.app_requirements
  let installed_apps := (apps.filter (·.installed)).map (·.name)
  let recommendations : List MdmRec := required_apps.flatMap fun app =>
    if app ∉ installed_apps then
      [{ type := "app", app := app, priority := "medium"
         action := "Install " ++ app ++ " from App Store"
         link := "https://apps.company.com/install" }]
    else []
  let total_checks := required_profiles.length + 3 + required_apps.length
  let failed_checks := compliance_issues.length
  let compliance_score : Int :=
    max 0 (100 - (((failed_checks * 100) / total_checks : ℕ) : Int))
  { device_id := device_id
    timestamp := timestamp
    compliance_score := compliance_score
    status := if compliance_score ≥ 90 then "COMPLIANT" else "NON_COMPLIANT"
    profiles := profiles
    security := security
    apps := apps
    issues := compliance_issues
    recommendations := recommendations
    summary :=
      { total_checks := total_checks
        passed_checks := (total_checks : Int) - (failed_checks : Int)
        failed_checks := failed_checks
        critical_issues :=
          (compliance_issues.filter (fun i => i.severity == "critical")).length
        high_priority :=
          (compliance_issues.filter (fun i => i.severity == "high")).length } }

/-! ## storage_cleaner.py : StorageAnalyzer -/

/-- Random draws of simulate_storage_usage: the chosen capacity, the used
amount, and the six raw breakdown percentages. -/
structure StorageDraws where
  total_gb : ℕ
  used_gb : ℕ
  pct_apps : ℕ
  pct_photos : ℕ
  pct_documents : ℕ
  pct_system : ℕ
  pct_cache : ℕ
  pct_other : ℕ
  deriving DecidableEq, Repr

def StorageDraws.valid (s : StorageDraws) : Bool :=
  (decide (s.total_gb = 64) || decide (s.total_gb = 128) ||
    decide (s.total_gb = 256) || decide (s.total_gb = 512)) &&
  decide (s.total_gb / 2 ≤ s.used_gb) && decide (s.used_gb ≤ s.total_gb - 5) &&
  decide (30 ≤ s.pct_apps) && decide (s.pct_apps ≤ 60) &&
  decide (10 ≤ s.pct_photos) && decide (s.pct_photos ≤ 40) &&
  decide (5 ≤ s.pct_documents) && decide (s.pct_documents ≤ 20) &&
  decide (10 ≤ s.pct_system) && decide (s.pct_system ≤ 20) &&
  decide (5 ≤ s.pct_cache) && decide (s.pct_cache ≤ 15) &&
  decide (1 ≤ s.pct_other) && decide (s.pct_other ≤ 10)

structure BreakdownEntry where
  category : String
  size_gb : ℚ
  percentage : ℚ
  cleanable : Bool
  deriving DecidableEq, Repr

structure StorageSummary where
  total : ℕ
  used : ℕ
  available : ℕ
  percentage_used : ℚ
  breakdown : List BreakdownEntry
  deriving DecidableEq, Repr

def simulate_storage_usage (s : StorageDraws) : StorageSummary :=
  let total_percent : ℕ :=
    s.pct_apps + s.pct_photos + s.pct_documents + s.pct_system +
      s.pct_cache + s.pct_other
  let normalize : ℕ → ℚ := fun p =>
    roundTo 1 (((p : ℚ) / (total_percent : ℚ)) * 100)
  let entry : String → ℕ → Bool → BreakdownEntry := fun cat p cleanable =>
    { category := cat
      size_gb := roundTo 1 ((s.used_gb : ℚ) * normalize p / 100)
      percentage := normalize p
      cleanable := cleanable }
  { total := s.total_gb
    used := s.used_gb
    available := s.total_gb - s.used_gb
    percentage_used := roundTo 1 (((s.used_gb : ℚ) / (s.total_gb : ℚ)) * 100)
    breakdown :=
      [entry "Applications" s.pct_apps true,
       entry "Photos & Videos" s.pct_photos true,
       entry "Documents & Data" s.pct_documents false,
       entry "System" s.pct_system false,
       entry "Cached Data" s.pct_cache true,
       entry "Other" s.pct_other false] }

/-- Random draws for one simulated app: random.uniform cache, app and
documents sizes plus the randint days-ago offset of last_used. -/
structure AppDraw where
  cache_size : ℚ
  app_size : ℚ
  documents_size : ℚ
  days_ago : ℕ
  deriving DecidableEq, Repr

def AppDraw.validIn (a : AppDraw) (lo hi : ℚ) : Bool :=
  decide (lo ≤ a.cache_size) && decide (a.cache_size ≤ hi) &&
  decide ((0.1 : ℚ) ≤ a.app_size) && decide (a.app_size ≤ (1.5 : ℚ)) &&
  decide ((0 : ℚ) ≤ a.documents_size) &&
  decide (a.documents_size ≤ (2 : ℚ)) &&
  decide (a.days_ago ≤ 90)

/-- Random draws of analyze_app_storage, one per fixed app. -/
structure AppDraws where
  safari : AppDraw
  photos : AppDraw
  messages : AppDraw
  mail : AppDraw
  teams : AppDraw
  slack : AppDraw
  chrome : AppDraw
  spotify : AppDraw
  youtube : AppDraw
  instagram : AppDraw
  camera : AppDraw
  app_store : AppDraw
  deriving DecidableEq, Repr

def AppDraws.valid (a : AppDraws) : Bool :=
  a.safari.validIn (0.5 : ℚ) (2.5 : ℚ) &&
  a.photos.validIn (1.0 : ℚ) (5.0 : ℚ) &&
  a.messages.validIn (0.3 : ℚ) (1.5 : ℚ) &&
  a.mail.validIn (0.5 : ℚ) (2.0 : ℚ) &&
  a.teams.validIn (0.8 : ℚ) (3.0 : ℚ) &&
  a.slack.validIn (0.5 : ℚ) (2.5 : ℚ) &&
  a.chrome.validIn (0.7 : ℚ) (3.0 : ℚ) &&
  a.spotify.validIn (1.0 : ℚ) (4.0 : ℚ) &&
  a.youtube.validIn (1.5 : ℚ) (5.0 : ℚ) &&
  a.instagram.validIn (0.8 : ℚ) (3.5 : ℚ) &&
  a.camera.validIn (0.1 : ℚ) (0.5 : ℚ) &&
  a.app_store.validIn (0.2 : ℚ) (1.0 : ℚ)

/-- One analysed app.  The source stores last_used as a date string and
later uses only the day difference to now, modelled as days_ago. -/
structure AppInfo where
  name : String
  type : String
  cache_size : ℚ
  app_size : ℚ
  documents_size : ℚ
  total_size : ℚ
  days_ago : ℕ
  cleanable_cache : Bool
  deriving DecidableEq, Repr

def mkApp (name type : String) (a : AppDraw) : AppInfo :=
  { name := name
    type := type
    cache_size := a.cache_size
    app_size := a.app_size
    documents_size := a.documents_size
    total_size := roundTo 2 (a.app_size + a.cache_size + a.documents_size)
    days_ago := a.days_ago
    cleanable_cache := decide (a.cache_size > (0.5 : ℚ)) }

def common_apps (a : AppDraws) : List AppInfo :=
  [mkApp "Safari" "system" a.safari,
   mkApp "Photos" "media" a.photos,
   mkApp "Messages" "communication" a.messages,
   mkApp "Mail" "productivity" a.mail,
   mkApp "Teams" "corporate" a.teams,
   mkApp "Slack" "corporate" a.slack,
   mkApp "Chrome" "browser" a.chrome,
   mkApp "Spotify" "entertainment" a.spotify,
   mkApp "YouTube" "entertainment" a.youtube,
   mkApp "Instagram" "social" a.instagram,
   mkApp "Camera" "system" a.camera,
   mkApp "App Store" "system" a.app_store]

/-- Comparator of sorted(..., key=total_size, reverse=True): x may come
before y exactly when its total size is at least as large. -/
def appGeRel (x y : AppInfo) : Prop := y.total_size ≤ x.total_size

instance : DecidableRel appGeRel := fun x y =>
  inferInstanceAs (Decidable (y.total_size ≤ x.total_size))

instance : IsTotal AppInfo appGeRel :=
  ⟨fun x y => le_total y.total_size x.total_size⟩

instance : IsTrans AppInfo appGeRel :=
  ⟨fun _ _ _ hxy hyz => le_trans hyz hxy⟩

/-- Python sorted with a key and reverse=True is a stable sort by the
descending-total comparator; insertionSort with a total transitive
relation is exactly such a stable sort. -/
def analyze_app_storage (a : AppDraws) : List AppInfo :=
  List.insertionSort appGeRel (common_apps a)

/-- Helper for the Python substring test: does pat occur in the
character list. -/
def strFindSub (pat : List Char) : List Char → Bool
  | [] => decide (pat = [])
  | c :: rest => pat.isPrefixOf (c :: rest) || strFindSub pat rest

/-- Python substring test pat in s (for the nonempty patterns used by the
source). -/
def pyIn (pat s : String) : Bool := strFindSub pat.data s.data

/-- Python next((item for item in breakdown if sub in item.category), None). -/
def findCategory (sub : String) (l : List BreakdownEntry) :
    Option BreakdownEntry :=
  l.find? (fun item => pyIn sub item.category)

structure StorIssue where
  severity : String
  type : String
  message : String
  impact : String
  deriving DecidableEq, Repr

structure StorRec where
  action : String
  steps : List String
  savings_gb : ℚ
  deriving DecidableEq, Repr

structure CleanupTask where
  task : String
  time : String
  savings : String
  deriving DecidableEq, Repr

structure CleanupPlan where
  quick_clean : List CleanupTask
  deep_clean : List CleanupTask
  deriving DecidableEq, Repr

structure StorageReport where
  device_id : String
  timestamp : String
  storage_summary : StorageSummary
  app_analysis : List AppInfo
  issues : List StorIssue
  recommendations : List StorRec
  cleanup_plan : CleanupPlan
  potential_savings_gb : ℚ
  next_steps : List String
  deriving DecidableEq, Repr

/-- Overall storage check of identify_storage_issues. -/
def usageIssues (storage : StorageSummary) : List StorIssue :=
  if storage.percentage_used > 90 then
    [{ severity := "critical", type := "low_storage"
       message := "Device storage critically low (" ++
         toString storage.percentage_used ++ "% used)"
       impact := "Device performance degraded, apps may crash" }]
  else if storage.percentage_used > 80 then
    [{ severity := "high", type := "low_storage"
       message := "Device storage low (" ++
         toString storage.percentage_used ++ "% used)"
       impact := "Limited space for new apps and updates" }]
  else []

/-- Cache block of identify_storage_issues: issues appended,
recommendations appended, amount added to potential_savings. -/
def cacheStep (storage : StorageSummary) :
    List StorIssue × List StorRec × ℚ :=
  match findCategory "Cached Data" storage.breakdown with
  | some cache_data =>
    if cache_data.size_gb > 2 then
      ([{ severity := "medium", type := "excessive_cache"
          message := "Large cache data (" ++ toString cache_data.size_gb ++
            " GB)"
          impact := "Wasted storage space" }],
       [{ action := "Clear Safari cache"
          steps := ["Settings > Safari > Clear History and Website Data"]
          savings_gb := roundTo 1 (cache_data.size_gb * (0.3 : ℚ)) }],
       cache_data.size_gb)
    else ([], [], 0)
  | none => ([], [], 0)

def isLargeApp (app : AppInfo) : Bool := decide (app.total_size > (2.0 : ℚ))

def isExcludedType (app : AppInfo) : Bool :=
  ["system", "corporate"].contains app.type

/-- Large-apps block: the issue counts every app over 2GB; the per-app
recommendations and savings take the first three large apps and keep
only those whose type is not system or corporate. -/
def largeStep (apps : List AppInfo) : List StorIssue × List StorRec × ℚ :=
  let large_apps := apps.filter isLargeApp
  if large_apps.isEmpty then ([], [], 0)
  else
    ([{ severity := "medium", type := "large_apps"
        message := toString large_apps.length ++ " apps using over 2GB each"
        impact := "Significant storage consumption" }],
     ((large_apps.take 3).filter (fun app => !isExcludedType app)).map
       (fun app =>
         { action := "Review " ++ app.name ++ " storage"
           steps := ["Settings > General > iPhone Storage > " ++ app.name,
                     "Consider offloading app or clearing cache"]
           savings_gb := roundTo 1 (app.cache_size + app.documents_size) }),
     (((large_apps.take 3).filter (fun app => !isExcludedType app)).map
       (fun app => app.cache_size + app.documents_size)).sum)

def isUnusedApp (app : AppInfo) : Bool :=
  decide (app.days_ago > 60) && !isExcludedType app

/-- Unused-apps block: recommendation over the first five unused apps. -/
def unusedStep (apps : List AppInfo) : List StorRec × ℚ :=
  let unused_apps := apps.filter isUnusedApp
  if unused_apps.isEmpty then ([], 0)
  else
    let unused_storage := (((unused_apps.take 5)).map (·.total_size)).sum
    ([{ action := "Remove unused apps"
        steps := ["Settings > General > iPhone Storage",
                  "Review the Unused Apps section",
                  "Tap on apps and select Delete App"]
        savings_gb := roundTo 1 unused_storage }],
     unused_storage)

/-- Photo block: recommendation only, nothing added to the total. -/
def photoStep (storage : StorageSummary) : List StorRec :=
  match findCategory "Photos" storage.breakdown with
  | some photos_data =>
    if photos_data.size_gb > 10 then
      [{ action := "Optimize photo storage"
         steps := ["Settings > Photos", "Select Optimize iPhone Storage",
                   "Review the Recently Deleted album"]
         savings_gb := roundTo 1 (photos_data.size_gb * (0.2 : ℚ)) }]
    else []
  | none => []

def quickCleanPlan (storage : StorageSummary) : List CleanupTask :=
  match findCategory "Cached Data" storage.breakdown with
  | some cache_data =>
    if cache_data.size_gb > 1 then
      [{ task := "Clear browser caches", time := "2 minutes"
         savings := "Up to " ++
           toString (roundTo 1 (cache_data.size_gb * (0.3 : ℚ))) ++ " GB" }]
    else []
  | none => []

def deepCleanPlan (apps : List AppInfo) : List CleanupTask :=
  let unused_apps := apps.filter isUnusedApp
  if unused_apps.isEmpty then []
  else
    [{ task := "Remove " ++ toString (unused_apps.take 3).length ++
         " unused apps"
       time := "10 minutes"
       savings := "Up to " ++
         toString (roundTo 1 (((unused_apps.take 3).map (·.total_size)).sum))
         ++ " GB" }]

def identify_storage_issues (device_id timestamp : String)
    (s : StorageDraws) (a : AppDraws) : StorageReport :=
  let storage := simulate_storage_usage s
  let apps := analyze_app_storage a
  let cache := cacheStep storage
  let large := largeStep apps
  let unused := unusedStep apps
  { device_id := device_id
    timestamp := timestamp
    storage_summary := storage
    app_analysis := apps.take 10
    issues := usageIssues storage ++ cache.1 ++ large.1
    recommendations := cache.2.1 ++ large.2.1 ++ unused.1 ++ photoStep storage
    cleanup_plan :=
      { quick_clean := quickCleanPlan storage, deep_clean := deepCleanPlan apps }
    potential_savings_gb := roundTo 1 (cache.2.2 + large.2.2 + unused.2)
    next_steps :=
      ["Review app storage in Settings > General > iPhone Storage",
       "Enable iCloud Photo Library optimization",
       "Set up automatic app offloading"] }

/-- C9 witness draws: a 64 GB device half full with in-range raw
percentages. -/
def badBreakdownDraws : StorageDraws :=
  { total_gb := 64, used_gb := 32, pct_apps := 30, pct_photos := 10
    pct_documents := 5, pct_system := 10, pct_cache := 11, pct_other := 10 }

/-- Concrete storage draws whose cache category ends up at 5.7 GB. -/
def savingsStorageDraws : StorageDraws :=
  { total_gb := 64, used_gb := 32, pct_apps := 30, pct_photos := 10
    pct_documents := 5, pct_system := 10, pct_cache := 14, pct_other := 10 }

/-- App draw at the bottom of every range: small app, never unused. -/
def minimalApp (c : ℚ) : AppDraw :=
  { cache_size := c, app_size := 0.1, documents_size := 0, days_ago := 0 }

def savingsAppDraws : AppDraws :=
  { safari := minimalApp 0.5, photos := minimalApp 1.0
    messages := minimalApp 0.3, mail := minimalApp 0.5
    teams := minimalApp 0.8, slack := minimalApp 0.5
    chrome := minimalApp 0.7, spotify := minimalApp 1.0
    youtube := minimalApp 1.5, instagram := minimalApp 0.8
    camera := minimalApp 0.1, app_store := minimalApp 0.2 }

/-- Concrete storage draws keeping cache and photos categories quiet. -/
def largeStorageDraws : StorageDraws :=
  { total_gb := 64, used_gb := 32, pct_apps := 60, pct_photos := 40
    pct_documents := 20, pct_system := 20, pct_cache := 5, pct_other := 10 }

/-- App draws where Photos (3.5), Teams (3.0), Slack (2.9) and YouTube
(2.5 GB) all exceed 2 GB, so the first three large apps are Photos,
Teams, Slack and only Photos is neither system nor corporate. -/
def largeAppDraws : AppDraws :=
  { safari := ⟨0.5, 0.1, 0, 0⟩, photos := ⟨2.0, 1.0, 0.5, 0⟩
    messages := ⟨0.3, 0.1, 0, 0⟩, mail := ⟨0.5, 0.1, 0.1, 0⟩
    teams := ⟨1.5, 1.0, 0.5, 0⟩, slack := ⟨1.4, 1.0, 0.5, 0⟩
    chrome := ⟨0.7, 0.1, 0, 0⟩, spotify := ⟨1.0, 0.1, 0, 0⟩
    youtube := ⟨1.5, 0.5, 0.5, 0⟩, instagram := ⟨0.8, 0.1, 0, 0⟩
    camera := ⟨0.1, 0.1, 0, 0⟩, app_store := ⟨0.2, 0.1, 0, 0⟩ }

/-! ## Export paths and the dispatcher (app.py run_script) -/

/-- Python str.lower(), character by character. -/
def pyLower (s : String) : String := String.mk (s.data.map Char.toLower)

/-- Models json.dumps(report, indent=2): a total structural rendering of
the report; only the fact that export succeeds matters to the properties
below, not the exact text. -/
def network_json_report (r : NetworkReport) : String := reprStr r

/-- Text rendering branch of NetworkValidator.export_report. -/
def network_text_report (r : NetworkReport) : String :=
  "iOS NETWORK HEALTH REPORT" ++
  "\nDevice: " ++ r.device_id ++
  "\nTime: " ++ r.timestamp ++
  "\nHealth Score: " ++ toString r.health_score ++ "/100" ++
  "\nStatus: " ++ r.summary.status ++
  "\nISSUES FOUND (" ++ toString r.issues.length ++ "):" ++
  String.join (r.issues.map fun i =>
    "\n[" ++ i.category ++ "] " ++ i.message ++
      "\n   Solution: " ++ i.solution) ++
  (if !r.recommendations.isEmpty then
    "\nRECOMMENDED ACTIONS:" ++
    String.join (r.recommendations.map fun rec =>
      "\n- " ++ rec.action ++ " (" ++ rec.priority ++ " priority)")
   else "")

/-- NetworkValidator.export_report: json and text are recognized case
insensitively; any other value raises ValueError, modelled as an error
result. -/
def export_report (device_id timestamp : String) (d : NetworkDraws)
    (format : String) : Except String String :=
  let report := generate_health_report device_id timestamp d
  if pyLower format == "json" then Except.ok (network_json_report report)
  else if pyLower format == "text" then Except.ok (network_text_report report)
  else Except.error ("Unsupported format: " ++ format)

def storage_json_report (r : StorageReport) : String := reprStr r

/-- Text rendering branch of StorageAnalyzer.generate_cleanup_report. -/
def storage_text_report (r : StorageReport) : String :=
  "iOS STORAGE OPTIMIZATION REPORT" ++
  "\nDevice: " ++ r.device_id ++
  "\nGenerated: " ++ r.timestamp ++
  "\nTotal: " ++ toString r.storage_summary.total ++ " GB" ++
  "\nUsed: " ++ toString r.storage_summary.used ++ " GB" ++
  "\nAvailable: " ++ toString r.storage_summary.available ++ " GB" ++
  "\nUsage: " ++ toString r.storage_summary.percentage_used ++ "%" ++
  "\nTOP STORAGE CONSUMERS:" ++
  String.join ((r.app_analysis.take 5).map fun app =>
    "\n" ++ app.name ++ ": " ++ toString app.total_size ++ " GB (Cache: " ++
      toString app.cache_size ++ " GB)" ++
      (if app.cleanable_cache then " [cleanable]" else "")) ++
  (if !r.issues.isEmpty then
    "\nISSUES DETECTED:" ++
    String.join (r.issues.map fun i =>
      "\n[" ++ i.severity ++ "] " ++ i.message)
   else "") ++
  (if !r.recommendations.isEmpty then
    "\nRECOMMENDED ACTIONS:" ++
    String.join ((r.recommendations.take 3).map fun rec =>
      "\n" ++ rec.action ++ " - potential savings: " ++
        toString rec.savings_gb ++ " GB")
   else "") ++
  "\nPOTENTIAL TOTAL SAVINGS: " ++ toString r.potential_savings_gb ++ " GB" ++
  "\nQUICK CLEANUP:" ++
  (if !r.cleanup_plan.quick_clean.isEmpty then
    String.join (r.cleanup_plan.quick_clean.map fun t =>
      "\n" ++ t.task ++ " (" ++ t.time ++ ") - " ++ t.savings)
   else "\nNo quick cleanup tasks available") ++
  "\nDEEP CLEANUP:" ++
  String.join (r.cleanup_plan.deep_clean.map fun t =>
    "\n" ++ t.task ++ " (" ++ t.time ++ ") - " ++ t.savings)

/-- StorageAnalyzer.generate_cleanup_report: returns the JSON rendering
for format == "json" and the text rendering for EVERY other value; it has
no failure path at all. -/
def generate_cleanup_report (device_id timestamp : String)
    (s : StorageDraws) (a : AppDraws) (format : String) : String :=
  let analysis := identify_storage_issues device_id timestamp s a
  if format == "json" then storage_json_report analysis
  else storage_text_report analysis

inductive ScriptPayload
  | network (r : NetworkReport)
  | mdm (r : MdmReport)
  | storage (r : StorageReport)
  deriving Repr

structure DispatchDraws where
  network : NetworkDraws
  mdm : MdmDraws
  storage : StorageDraws
  apps : AppDraws
  deriving Repr

/-- Response of app.py run_script: the success envelope or the 404
not-found body listing the available scripts.  The except-branch of the
source is unreachable in this model because the generators are total. -/
inductive RunScriptResponse
  | ok (script : String) (device_id : String) (timestamp : String)
      (result : ScriptPayload)
  | notFound (error : String) (available_scripts : List String)
  deriving Repr

def run_script (script_name device_id timestamp : String)
    (d : DispatchDraws) : RunScriptResponse :=
  if script_name == "network_validator" then
    .ok script_name device_id timestamp
      (.network (generate_health_report device_id timestamp d.network))
  else if script_name == "mdm_checker" then
    .ok script_name device_id timestamp
      (.mdm (run_compliance_check device_id timestamp d.mdm))
  else if script_name == "storage_cleaner" then
    .ok script_name device_id timestamp
      (.storage (identify_storage_issues device_id timestamp d.storage d.apps))
  else
    .notFound "Script not found"
      ["network_validator", "mdm_checker", "storage_cleaner"]

def exampleNetworkDraws : NetworkDraws :=
  { wifi_connected := true, signal_strength := -50, ssid_present := true
    ip_present := true, ip_last := 10
    corp_vpn_status := CorpVpnStatus.connected
    internal_resolves := true, mdm_resolves := true
    ip_apple := "1.2.3.4", ip_internal := "5.6.7.8", ip_mdm := "9.10.11.12" }

def exampleMdmDraws : MdmDraws :=
  { corporate_mdm := ⟨true, 60⟩, vpn_configuration := ⟨true, 120⟩
    email_profile_days := 100, wifi_certificate := ⟨true, 90⟩
    security_policy := ⟨true, 200⟩
    security :=
      { passcode_enabled := true, passcode_length := 6
        complexity := "numeric", auto_lock_minutes := 5
        data_protection := true, jailbroken := false
        os_choice := "17.4", model_choice := "iPhone 15" }
    company_portal := true, authenticator := true
    secure_mail := true, vpn_client := true }

def exampleDispatchDraws : DispatchDraws :=
  { network := exampleNetworkDraws, mdm := exampleMdmDraws
    storage := badBreakdownDraws, apps := savingsAppDraws }

/-! Helper lemmas: each of the three checks contributes at most one issue. -/

theorem wifi_issues_length_le (d : NetworkDraws) :
    (check_wifi_connectivity d).2.length ≤ 1 := by
  simp only [check_wifi_connectivity]
  split <;> simp_all <;> split <;> simp_all

theorem vpn_issues_length_le (d : NetworkDraws) :
    (check_vpn_configuration d).2.1.length ≤ 1 := by
  simp only [check_vpn_configuration, vpn_configs, List.flatMap_cons,
    List.flatMap_nil, vpnStepIssues]
  cases d.corp_vpn_status <;> simp [CorpVpnStatus.str]

theorem dns_issues_length_le (d : NetworkDraws) :
    (check_dns_settings d).2.length ≤ 1 := by
  simp only [check_dns_settings, test_domains, List.flatMap_cons,
    List.flatMap_nil, dnsIssueOf]
  cases d.internal_resolves <;> cases d.mdm_resolves <;> simp

theorem network_report_issues_decomp (device_id timestamp : String)
    (d : NetworkDraws) :
    (generate_health_report device_id timestamp d).issues =
      (check_wifi_connectivity d).2 ++ (check_vpn_configuration d).2.1 ++
        (check_dns_settings d).2 := rfl

theorem network_issue_count_le (device_id timestamp : String)
    (d : NetworkDraws) :
    (generate_health_report device_id timestamp d).issues.length ≤ 3 := by
  rw [network_report_issues_decomp]
  have h1 := wifi_issues_length_le d
  have h2 := vpn_issues_length_le d
  have h3 := dns_issues_length_le d
  simp only [List.length_append]
  omega

/-- C4: the network health score equals max(0, 100 - 20 * issue_count)
with issue_count the number of issues produced by the three checks, hence
lies in [0, 100], and the summary status is the deterministic function of
the score given by the thresholds 80 and 50. -/
theorem network_health_score_spec (device_id timestamp : String)
    (d : NetworkDraws) :
    let r := generate_health_report device_id timestamp d
    r.health_score = max 0 (100 - 20 * (r.issues.length : Int)) ∧
    0 ≤ r.health_score ∧ r.health_score ≤ 100 ∧
    r.summary.status =
      (if r.health_score ≥ 80 then "HEALTHY"
       else if r.health_score ≥ 50 then "NEEDS_ATTENTION"
       else "UNHEALTHY") := by
  intro r
  have hscore : r.health_score =
      max 0 (100 - ((r.issues.length : Int)) * 20) := rfl
  refine ⟨by rw [hscore]; ring_nf, ?_, ?_, rfl⟩
  · rw [hscore]; exact le_max_left 0 _
  · rw [hscore]
    have : (0 : Int) ≤ (r.issues.length : Int) * 20 := by positivity
    omega

/-- C8 counterexample: a run where Wi-Fi is disconnected, Corporate_VPN is
in error and company.internal fails to resolve yields three issues, score
40 and status UNHEALTHY, so UNHEALTHY is reachable. -/
theorem network_unhealthy_reachable :
    (NetworkDraws.valid
      { wifi_connected := false, signal_strength := -50, ssid_present := true
        ip_present := true, ip_last := 10
        corp_vpn_status := CorpVpnStatus.error
        internal_resolves := false, mdm_resolves := true
        ip_apple := "1.2.3.4", ip_internal := "5.6.7.8"
        ip_mdm := "9.10.11.12" }) = true ∧
    (generate_health_report "dev-1" "2024-01-01T00:00:00"
      { wifi_connected := false, signal_strength := -50, ssid_present := true
        ip_present := true, ip_last := 10
        corp_vpn_status := CorpVpnStatus.error
        internal_resolves := false, mdm_resolves := true
        ip_apple := "1.2.3.4", ip_internal := "5.6.7.8"
        ip_mdm := "9.10.11.12" }).summary.status = "UNHEALTHY" ∧
    (generate_health_report "dev-1" "2024-01-01T00:00:00"
      { wifi_connected := false, signal_strength := -50, ssid_present := true
        ip_present := true, ip_last := 10
        corp_vpn_status := CorpVpnStatus.error
        internal_resolves := false, mdm_resolves := true
        ip_apple := "1.2.3.4", ip_internal := "5.6.7.8"
        ip_mdm := "9.10.11.12" }).health_score = 40 := by
  refine ⟨by decide, by decide, by decide⟩

/-- C8 amended: every network health report has at most 3 issues, its
score is one of 40, 60, 80, 100, passed_checks is nonnegative, and the
status is UNHEALTHY exactly when all three checks produced an issue
(3 issues, score 40) - so UNHEALTHY is reachable, not unreachable. -/
theorem network_report_invariants (device_id timestamp : String)
    (d : NetworkDraws) :
    let r := generate_health_report device_id timestamp d
    r.issues.length ≤ 3 ∧
    (r.health_score = 40 ∨ r.health_score = 60 ∨ r.health_score = 80 ∨
      r.health_score = 100) ∧
    0 ≤ r.summary.passed_checks ∧
    (r.summary.status = "UNHEALTHY" ↔ r.issues.length = 3) := by
  intro r
  have hle : r.issues.length ≤ 3 := network_issue_count_le device_id timestamp d
  have hscore : r.health_score =
      max 0 (100 - ((r.issues.length : Int)) * 20) := rfl
  have hpassed : r.summary.passed_checks = 3 - (r.issues.length : Int) := rfl
  have hstatus : r.summary.status =
      (if r.health_score ≥ 80 then "HEALTHY"
       else if r.health_score ≥ 50 then "NEEDS_ATTENTION"
       else "UNHEALTHY") := rfl
  refine ⟨hle, ?_, ?_, ?_⟩
  · interval_cases h : r.issues.length <;> simp_all <;> rw [hscore] <;> simp_all
  · rw [hpassed]; omega
  · rw [hstatus]
    interval_cases h : r.issues.length <;>
      rw [hscore] <;> simp_all <;> decide

/-- C1: for every compliance check run, total_checks is 11 (4 required
profiles + 3 fixed security checks + 4 required apps), failed_checks is
the length of the issues list (recommendations excluded), the compliance
score is max(0, 100 - 100*failed_checks/total_checks) with Python floor
division, and the status is COMPLIANT exactly when the score is at least
90 and NON_COMPLIANT otherwise. -/
theorem mdm_compliance_score_spec (device_id timestamp : String)
    (d : MdmDraws) :
    let r := run_compliance_check device_id timestamp d
    r.summary.total_checks = 11 ∧
    r.summary.failed_checks = r.issues.length ∧
    r.compliance_score =
      max 0 (100 - (((100 * r.issues.length) / 11 : ℕ) : Int)) ∧
    r.status =
      (if r.compliance_score ≥ 90 then "COMPLIANT" else "NON_COMPLIANT") := by
  intro r
  refine ⟨rfl, rfl, ?_, rfl⟩
  show max 0 (100 - (((r.issues.length * 100) / 11 : ℕ) : Int)) = _
  rw [Nat.mul_comm]

/-! ## Claims about the storage generator -/

/-- Rounding to one decimal moves a rational by at most 1/20. -/
theorem abs_roundTo_one_sub_le (x : ℚ) : |roundTo 1 x - x| ≤ 1 / 20 := by
  unfold roundTo
  rw [pow_one]
  have h := abs_sub_round (x * 10)
  rw [abs_sub_comm] at h
  have h2 : ((round (x * 10) : ℤ) : ℚ) / 10 - x =
      (((round (x * 10) : ℤ) : ℚ) - x * 10) / 10 := by ring
  rw [h2, abs_div, abs_of_pos (by norm_num : (0 : ℚ) < 10)]
  linarith

/-- Round to one decimal preserves an integer lower bound. -/
theorem intCast_le_roundTo_one (c : ℤ) (x : ℚ) (h : (c : ℚ) ≤ x) :
    (c : ℚ) ≤ roundTo 1 x := by
  unfold roundTo
  rw [pow_one, le_div_iff (by norm_num : (0 : ℚ) < 10)]
  have hfl : c * 10 ≤ round (x * 10) := by
    rw [round_eq]
    apply Int.le_floor.mpr
    push_cast
    linarith
  calc (c : ℚ) * 10 = ((c * 10 : ℤ) : ℚ) := by push_cast; ring
    _ ≤ ((round (x * 10) : ℤ) : ℚ) := by exact_mod_cast hfl

/-- C9: in every storage report the used space lies between half the
capacity and capacity minus 5 GB, available equals total minus used and is
at least 5 GB, and percentage_used is at least 50. -/
theorem storage_usage_invariants (s : StorageDraws) (h : s.valid = true) :
    (simulate_storage_usage s).total / 2 ≤ (simulate_storage_usage s).used ∧
    (simulate_storage_usage s).used ≤ (simulate_storage_usage s).total - 5 ∧
    (simulate_storage_usage s).available =
      (simulate_storage_usage s).total - (simulate_storage_usage s).used ∧
    5 ≤ (simulate_storage_usage s).available ∧
    (50 : ℚ) ≤ (simulate_storage_usage s).percentage_used := by
  simp only [StorageDraws.valid, Bool.and_eq_true, Bool.or_eq_true,
    decide_eq_true_eq] at h
  have htot : s.total_gb = 64 ∨ s.total_gb = 128 ∨ s.total_gb = 256 ∨
      s.total_gb = 512 := by tauto
  have hlo : s.total_gb / 2 ≤ s.used_gb := by tauto
  have hhi : s.used_gb ≤ s.total_gb - 5 := by tauto
  simp only [simulate_storage_usage]
  refine ⟨hlo, hhi, by trivial, by omega, ?_⟩
  have hpos : (0 : ℚ) < (s.total_gb : ℚ) := by
    have h0 : (0 : ℕ) < s.total_gb := by omega
    exact_mod_cast h0
  have h2u : s.total_gb ≤ 2 * s.used_gb := by omega
  have hx : (50 : ℚ) ≤ (s.used_gb : ℚ) / (s.total_gb : ℚ) * 100 := by
    rw [div_mul_eq_mul_div, le_div_iff hpos]
    have hc : (s.total_gb : ℚ) ≤ 2 * (s.used_gb : ℚ) := by exact_mod_cast h2u
    linarith
  have hfin := intCast_le_roundTo_one 50 _ (by exact_mod_cast hx)
  exact_mod_cast hfin

/-- Witness for C9 at a concrete valid draw. -/
theorem storage_usage_invariants_witness :
    (simulate_storage_usage badBreakdownDraws).total / 2 ≤
      (simulate_storage_usage badBreakdownDraws).used ∧
    (simulate_storage_usage badBreakdownDraws).used ≤
      (simulate_storage_usage badBreakdownDraws).total - 5 ∧
    (simulate_storage_usage badBreakdownDraws).available =
      (simulate_storage_usage badBreakdownDraws).total -
        (simulate_storage_usage badBreakdownDraws).used ∧
    5 ≤ (simulate_storage_usage badBreakdownDraws).available ∧
    (50 : ℚ) ≤ (simulate_storage_usage badBreakdownDraws).percentage_used :=
  storage_usage_invariants badBreakdownDraws (by decide)

/-- C2 amended: the six normalized breakdown percentages of every storage
report sum to 100 within 0.3 (six roundings to one decimal, each off by
at most 0.05); the claimed tolerance 0.1 is too tight. -/
theorem storage_breakdown_sum_bound (s : StorageDraws) (h : s.valid = true) :
    |((simulate_storage_usage s).breakdown.map
      (fun b => b.percentage)).sum - 100| ≤ (0.3 : ℚ) := by
  have hT : 0 < s.pct_apps + s.pct_photos + s.pct_documents + s.pct_system +
      s.pct_cache + s.pct_other := by
    simp only [StorageDraws.valid, Bool.and_eq_true, Bool.or_eq_true,
      decide_eq_true_eq] at h
    omega
  simp only [simulate_storage_usage, List.map_cons, List.map_nil,
    List.sum_cons, List.sum_nil, add_zero]
  set T : ℕ := s.pct_apps + s.pct_photos + s.pct_documents + s.pct_system +
    s.pct_cache + s.pct_other with hTdef
  have hT0 : ((T : ℕ) : ℚ) ≠ 0 := Nat.cast_ne_zero.mpr hT.ne'
  have hsum : (s.pct_apps : ℚ) / (T : ℚ) * 100 +
      (s.pct_photos : ℚ) / (T : ℚ) * 100 +
      (s.pct_documents : ℚ) / (T : ℚ) * 100 +
      (s.pct_system : ℚ) / (T : ℚ) * 100 +
      (s.pct_cache : ℚ) / (T : ℚ) * 100 +
      (s.pct_other : ℚ) / (T : ℚ) * 100 = 100 := by
    field_simp
    rw [hTdef]
    push_cast
    ring
  have e1 := abs_roundTo_one_sub_le ((s.pct_apps : ℚ) / (T : ℚ) * 100)
  have e2 := abs_roundTo_one_sub_le ((s.pct_photos : ℚ) / (T : ℚ) * 100)
  have e3 := abs_roundTo_one_sub_le ((s.pct_documents : ℚ) / (T : ℚ) * 100)
  have e4 := abs_roundTo_one_sub_le ((s.pct_system : ℚ) / (T : ℚ) * 100)
  have e5 := abs_roundTo_one_sub_le ((s.pct_cache : ℚ) / (T : ℚ) * 100)
  have e6 := abs_roundTo_one_sub_le ((s.pct_other : ℚ) / (T : ℚ) * 100)
  rw [abs_le] at e1 e2 e3 e4 e5 e6 ⊢
  constructor <;> [linarith; linarith]

/-- Witness for the amended C2 bound at a concrete valid draw. -/
theorem storage_breakdown_sum_bound_witness :
    |((simulate_storage_usage badBreakdownDraws).breakdown.map
      (fun b => b.percentage)).sum - 100| ≤ (0.3 : ℚ) :=
  storage_breakdown_sum_bound badBreakdownDraws (by decide)

/-- The twelve simulated apps all carry total_size = round2 of app size
plus cache size plus documents size. -/
theorem common_apps_total_size (a : AppDraws) :
    ∀ x ∈ common_apps a,
      x.total_size = roundTo 2 (x.app_size + x.cache_size + x.documents_size) := by
  intro x hx
  simp only [common_apps, List.mem_cons, List.not_mem_nil, or_false] at hx
  rcases hx with rfl | rfl | rfl | rfl | rfl | rfl | rfl | rfl | rfl | rfl |
    rfl | rfl <;> rfl

/-- C10: every storage report's app_analysis has exactly 10 entries,
sorted descending by total_size, each with total_size = round2 of
app+cache+documents size, and they are the 10 largest of the 12 simulated
apps: the remaining 2 apps all have total_size at most that of every
listed entry. -/
theorem storage_app_analysis_spec (device_id timestamp : String)
    (s : StorageDraws) (a : AppDraws) :
    (identify_storage_issues device_id timestamp s a).app_analysis.length = 10 ∧
    (identify_storage_issues device_id timestamp s a).app_analysis.Pairwise
      (fun x y => y.total_size ≤ x.total_size) ∧
    (∀ x ∈ (identify_storage_issues device_id timestamp s a).app_analysis,
      x.total_size = roundTo 2 (x.app_size + x.cache_size + x.documents_size)) ∧
    ∃ rest : List AppInfo,
      ((identify_storage_issues device_id timestamp s a).app_analysis ++
        rest).Perm (common_apps a) ∧
      ∀ y ∈ rest,
        ∀ x ∈ (identify_storage_issues device_id timestamp s a).app_analysis,
          y.total_size ≤ x.total_size := by
  have happ : (identify_storage_issues device_id timestamp s a).app_analysis =
      (analyze_app_storage a).take 10 := rfl
  have hsorted : (analyze_app_storage a).Pairwise appGeRel :=
    List.sorted_insertionSort appGeRel (common_apps a)
  have hperm : (analyze_app_storage a).Perm (common_apps a) :=
    List.perm_insertionSort appGeRel (common_apps a)
  have hlen : (analyze_app_storage a).length = 12 := by
    rw [hperm.length_eq]; rfl
  refine ⟨?_, ?_, ?_, ?_⟩
  · rw [happ, List.length_take, hlen]
    omega
  · rw [happ]
    exact (hsorted.sublist (List.take_sublist 10 _)).imp (fun hxy => hxy)
  · intro x hx
    rw [happ] at hx
    exact common_apps_total_size a x (hperm.mem_iff.mp (List.mem_of_mem_take hx))
  · refine ⟨(analyze_app_storage a).drop 10, ?_, ?_⟩
    · rw [happ, List.take_append_drop]
      exact hperm
    · intro y hy x hx
      rw [happ] at hx
      have hpw : ((analyze_app_storage a).take 10 ++
          (analyze_app_storage a).drop 10).Pairwise appGeRel := by
        rw [List.take_append_drop]
        exact hsorted
      exact (List.pairwise_append.mp hpw).2.2 x hx y hy

/-- Witness for C10 at a concrete draw. -/
theorem storage_app_analysis_spec_witness :
    (identify_storage_issues "dev-10" "2024-01-01T00:00:00" badBreakdownDraws
      (AppDraws.mk ⟨0.5, 0.1, 0, 0⟩ ⟨1.0, 0.1, 0, 0⟩ ⟨0.3, 0.1, 0, 0⟩
        ⟨0.5, 0.1, 0, 0⟩ ⟨0.8, 0.1, 0, 0⟩ ⟨0.5, 0.1, 0, 0⟩ ⟨0.7, 0.1, 0, 0⟩
        ⟨1.0, 0.1, 0, 0⟩ ⟨1.5, 0.1, 0, 0⟩ ⟨0.8, 0.1, 0, 0⟩ ⟨0.1, 0.1, 0, 0⟩
        ⟨0.2, 0.1, 0, 0⟩)).app_analysis.length = 10 :=
  (storage_app_analysis_spec "dev-10" "2024-01-01T00:00:00" badBreakdownDraws
    (AppDraws.mk ⟨0.5, 0.1, 0, 0⟩ ⟨1.0, 0.1, 0, 0⟩ ⟨0.3, 0.1, 0, 0⟩
      ⟨0.5, 0.1, 0, 0⟩ ⟨0.8, 0.1, 0, 0⟩ ⟨0.5, 0.1, 0, 0⟩ ⟨0.7, 0.1, 0, 0⟩
      ⟨1.0, 0.1, 0, 0⟩ ⟨1.5, 0.1, 0, 0⟩ ⟨0.8, 0.1, 0, 0⟩ ⟨0.1, 0.1, 0, 0⟩
      ⟨0.2, 0.1, 0, 0⟩)).1

/-! C5: composition of potential_savings_gb. -/

theorem cacheStep_savings (storage : StorageSummary) :
    (cacheStep storage).2.2 =
      (match findCategory "Cached Data" storage.breakdown with
       | some cd => if cd.size_gb > 2 then cd.size_gb else 0
       | none => 0) := by
  unfold cacheStep
  rcases findCategory "Cached Data" storage.breakdown with _ | cd
  · rfl
  · by_cases hgt : cd.size_gb > 2
    · simp [hgt]
    · simp [hgt]

theorem largeStep_savings (apps : List AppInfo) :
    (largeStep apps).2.2 =
      ((((apps.filter isLargeApp).take 3).filter
        (fun app => !isExcludedType app)).map
          (fun app => app.cache_size + app.documents_size)).sum := by
  simp only [largeStep]
  by_cases hemp : (apps.filter isLargeApp).isEmpty = true
  · rw [if_pos hemp]
    rw [List.isEmpty_iff] at hemp
    rw [hemp]
    rfl
  · rw [if_neg hemp]

theorem unusedStep_savings (apps : List AppInfo) :
    (unusedStep apps).2 =
      (if (apps.filter isUnusedApp).isEmpty then 0 else
        (((apps.filter isUnusedApp).take 5).map
          (fun app => app.total_size)).sum) := by
  simp only [unusedStep]
  by_cases hemp : (apps.filter isUnusedApp).isEmpty = true
  · rw [if_pos hemp, if_pos hemp]
  · rw [if_neg hemp, if_neg hemp]

/-- C5 amended: potential_savings_gb is the rounded sum of three
contributions: the FULL cache-category size when it exceeds 2 GB (not the
30% value carried by the cache recommendation), the cache+documents sizes
of the non-system non-corporate apps among the first three large apps,
and the summed total sizes of the first five unused apps; the
photo-optimization recommendation's savings are not included. -/
theorem storage_savings_formula (device_id timestamp : String)
    (s : StorageDraws) (a : AppDraws) :
    (identify_storage_issues device_id timestamp s a).potential_savings_gb =
      roundTo 1
        ((match findCategory "Cached Data"
            (simulate_storage_usage s).breakdown with
          | some cd => if cd.size_gb > 2 then cd.size_gb else 0
          | none => 0) +
         (((((analyze_app_storage a).filter isLargeApp).take 3).filter
            (fun app => !isExcludedType app)).map
              (fun app => app.cache_size + app.documents_size)).sum +
         (if ((analyze_app_storage a).filter isUnusedApp).isEmpty then 0 else
          ((((analyze_app_storage a).filter isUnusedApp).take 5).map
            (fun app => app.total_size)).sum)) := by
  show roundTo 1 ((cacheStep (simulate_storage_usage s)).2.2 +
      (largeStep (analyze_app_storage a)).2.2 +
      (unusedStep (analyze_app_storage a)).2) = _
  rw [cacheStep_savings, largeStep_savings, unusedStep_savings]

/-! C7: large-app issue and per-app recommendations. -/

set_option maxHeartbeats 1600000 in
/-- C7 amended: the medium large_apps issue appears whenever ANY app
(including system/corporate ones) exceeds 2 GB, and a per-app
recommendation with savings_gb = round1(cache+documents) is produced for
exactly those apps among the FIRST THREE large apps whose type is not
system or corporate - an eligible app ranked fourth or later among all
large apps gets none. -/
theorem storage_large_apps_spec (device_id timestamp : String)
    (s : StorageDraws) (a : AppDraws) :
    ((analyze_app_storage a).filter isLargeApp ≠ [] →
      ({ severity := "medium", type := "large_apps"
         message :=
           toString ((analyze_app_storage a).filter isLargeApp).length ++
             " apps using over 2GB each"
         impact := "Significant storage consumption" } : StorIssue) ∈
        (identify_storage_issues device_id timestamp s a).issues) ∧
    ∀ app ∈ (((analyze_app_storage a).filter isLargeApp).take 3).filter
        (fun app => !isExcludedType app),
      ({ action := "Review " ++ app.name ++ " storage"
         steps := ["Settings > General > iPhone Storage > " ++ app.name,
                   "Consider offloading app or clearing cache"]
         savings_gb := roundTo 1 (app.cache_size + app.documents_size) } :
        StorRec) ∈
        (identify_storage_issues device_id timestamp s a).recommendations := by
  have hissues : (identify_storage_issues device_id timestamp s a).issues =
      usageIssues (simulate_storage_usage s) ++
        (cacheStep (simulate_storage_usage s)).1 ++
        (largeStep (analyze_app_storage a)).1 := rfl
  have hrecs :
      (identify_storage_issues device_id timestamp s a).recommendations =
      (cacheStep (simulate_storage_usage s)).2.1 ++
        (largeStep (analyze_app_storage a)).2.1 ++
        (unusedStep (analyze_app_storage a)).1 ++
        photoStep (simulate_storage_usage s) := rfl
  constructor
  · intro hne
    have hlarge : (largeStep (analyze_app_storage a)).1 =
        [{ severity := "medium", type := "large_apps"
           message :=
             toString ((analyze_app_storage a).filter isLargeApp).length ++
               " apps using over 2GB each"
           impact := "Significant storage consumption" }] := by
      simp only [largeStep]
      rw [if_neg]
      simp only [List.isEmpty_iff]
      exact hne
    rw [hissues, hlarge]
    exact List.mem_append_right _ (List.mem_singleton_self _)
  · intro app happ
    have hne : (analyze_app_storage a).filter isLargeApp ≠ [] := by
      intro h0
      rw [h0] at happ
      simp at happ
    have hmem : (⟨"Review " ++ app.name ++ " storage",
        ["Settings > General > iPhone Storage > " ++ app.name,
         "Consider offloading app or clearing cache"],
        roundTo 1 (app.cache_size + app.documents_size)⟩ :
          StorRec) ∈ (largeStep (analyze_app_storage a)).2.1 := by
      have hemp : ¬ ((analyze_app_storage a).filter isLargeApp).isEmpty = true := by
        simp only [List.isEmpty_iff]
        exact hne
      simp only [largeStep]
      rw [if_neg hemp]
      exact List.mem_map_of_mem
        (fun app => (⟨"Review " ++ app.name ++ " storage",
          ["Settings > General > iPhone Storage > " ++ app.name,
           "Consider offloading app or clearing cache"],
          roundTo 1 (app.cache_size + app.documents_size)⟩ : StorRec)) happ
    rw [hrecs]
    exact List.mem_append_left _ (List.mem_append_left _
      (List.mem_append_right _ hmem))

/-- C3 amended: the network export path recognizes json and text case
insensitively and fails fast on any other value with an
unsupported-format error, while the storage report path never fails:
every non-json format value yields the full text report. -/
theorem export_format_dispatch (device_id timestamp : String)
    (d : NetworkDraws) (s : StorageDraws) (a : AppDraws) (format : String)
    (h : pyLower format ≠ "json" ∧ pyLower format ≠ "text") :
    export_report device_id timestamp d format =
      Except.error ("Unsupported format: " ++ format) ∧
    generate_cleanup_report device_id timestamp s a format =
      storage_text_report
        (identify_storage_issues device_id timestamp s a) := by
  obtain ⟨h1, h2⟩ := h
  constructor
  · simp only [export_report]
    rw [if_neg (by simpa using h1), if_neg (by simpa using h2)]
  · have hne : ¬ ((format == "json") = true) := by
      simp only [beq_iff_eq]
      intro heq
      apply h1
      rw [heq]
      rfl
    simp only [generate_cleanup_report]
    rw [if_neg hne]

/-- C3 counterexample: for the unrecognized format value xml, the storage
generator does not fail: it returns the complete text report, the same
output the format value text produces. -/
theorem storage_export_no_failure :
    ("xml" ≠ "json" ∧ "xml" ≠ "text") ∧
    generate_cleanup_report "dev-3" "2024-01-01T00:00:00" savingsStorageDraws
      savingsAppDraws "xml" =
      storage_text_report (identify_storage_issues "dev-3"
        "2024-01-01T00:00:00" savingsStorageDraws savingsAppDraws) ∧
    generate_cleanup_report "dev-3" "2024-01-01T00:00:00" savingsStorageDraws
      savingsAppDraws "xml" =
      generate_cleanup_report "dev-3" "2024-01-01T00:00:00" savingsStorageDraws
        savingsAppDraws "text" := by
  refine ⟨⟨by decide, by decide⟩, rfl, rfl⟩

/-- Witness for C3 at the concrete format value xml. -/
theorem export_format_dispatch_witness :
    export_report "dev-3w" "2024-01-01T00:00:00" exampleNetworkDraws "xml" =
      Except.error ("Unsupported format: " ++ "xml") ∧
    generate_cleanup_report "dev-3w" "2024-01-01T00:00:00" savingsStorageDraws
      savingsAppDraws "xml" =
      storage_text_report (identify_storage_issues "dev-3w"
        "2024-01-01T00:00:00" savingsStorageDraws savingsAppDraws) :=
  export_format_dispatch "dev-3w" "2024-01-01T00:00:00" exampleNetworkDraws
    savingsStorageDraws savingsAppDraws "xml" ⟨by decide, by decide⟩

/-- C6: for every script name other than the three known ones, the
dispatcher returns the not-found response listing exactly
network_validator, mdm_checker and storage_cleaner; the response does not
depend on the generator draws, so no generator is invoked. -/
theorem dispatcher_unknown_script (script_name device_id timestamp : String)
    (d : DispatchDraws)
    (h : script_name ≠ "network_validator" ∧ script_name ≠ "mdm_checker" ∧
      script_name ≠ "storage_cleaner") :
    run_script script_name device_id timestamp d =
      RunScriptResponse.notFound "Script not found"
        ["network_validator", "mdm_checker", "storage_cleaner"] := by
  simp only [run_script]
  rw [if_neg (by simpa using h.1), if_neg (by simpa using h.2.1),
    if_neg (by simpa using h.2.2)]

/-- Witness for C6 at the concrete script name unknown_x. -/
theorem dispatcher_unknown_script_witness :
    run_script "unknown_x" "dev-6" "2024-01-01T00:00:00"
      exampleDispatchDraws =
      RunScriptResponse.notFound "Script not found"
        ["network_validator", "mdm_checker", "storage_cleaner"] :=
  dispatcher_unknown_script "unknown_x" "dev-6" "2024-01-01T00:00:00"
    exampleDispatchDraws ⟨by decide, by decide, by decide⟩

/-! ## Concrete evaluations

The Batteries rational operations are irreducible by default, which
blocks kernel evaluation inside decide; they are made semireducible
locally for the concrete counterexamples and witnesses below. -/

section ConcreteEvaluation

attribute [local semireducible] Rat.add Rat.sub Rat.mul Rat.inv Rat.ofScientific

/-- C2 counterexample: for the valid raw percentages 30, 10, 5, 10, 11, 10
the six normalized percentages sum to 100.2, outside the claimed 0.1
tolerance around 100. -/
theorem storage_breakdown_sum_counterexample :
    badBreakdownDraws.valid = true ∧
    ((simulate_storage_usage badBreakdownDraws).breakdown.map
      (fun b => b.percentage)).sum = (100.2 : ℚ) ∧
    ¬ (|((simulate_storage_usage badBreakdownDraws).breakdown.map
        (fun b => b.percentage)).sum - 100| ≤ (0.1 : ℚ)) := by
  refine ⟨by decide, by decide, by decide⟩

/-- C5 counterexample: a valid run where the only recommendation is the
cache one, whose savings_gb is 1.7 (30% of the 5.7 GB cache) while
potential_savings_gb is 5.7 (the full cache size), so the total does not
equal the sum of the savings_gb values the recommendations carry. -/
theorem storage_savings_counterexample :
    savingsStorageDraws.valid = true ∧ savingsAppDraws.valid = true ∧
    (identify_storage_issues "dev-5" "2024-01-01T00:00:00" savingsStorageDraws
      savingsAppDraws).potential_savings_gb = (5.7 : ℚ) ∧
    ((((identify_storage_issues "dev-5" "2024-01-01T00:00:00"
        savingsStorageDraws savingsAppDraws).recommendations.filter
          (fun rec => rec.action != "Optimize photo storage")).map
            (fun rec => rec.savings_gb)).sum) = (1.7 : ℚ) ∧
    (identify_storage_issues "dev-5" "2024-01-01T00:00:00" savingsStorageDraws
      savingsAppDraws).potential_savings_gb ≠
      ((((identify_storage_issues "dev-5" "2024-01-01T00:00:00"
          savingsStorageDraws savingsAppDraws).recommendations.filter
            (fun rec => rec.action != "Optimize photo storage")).map
              (fun rec => rec.savings_gb)).sum) := by
  refine ⟨by decide, by decide, by decide, by decide, by decide⟩

/-- C7 counterexample: in this valid run YouTube (entertainment, 2.5 GB)
is among the first three large NON-system/corporate apps, yet the report
contains no recommendation for it, because the source takes the top three
of ALL large apps (Photos, Teams, Slack) before filtering out
system/corporate types. -/
theorem storage_large_apps_counterexample :
    largeStorageDraws.valid = true ∧ largeAppDraws.valid = true ∧
    "YouTube" ∈ ((((analyze_app_storage largeAppDraws).filter
      (fun app => isLargeApp app && !isExcludedType app)).take 3).map
        (fun app => app.name)) ∧
    ¬ (∀ app ∈ (((analyze_app_storage largeAppDraws).filter
          (fun app => isLargeApp app && !isExcludedType app)).take 3),
        ∃ rec ∈ (identify_storage_issues "dev-7" "2024-01-01T00:00:00"
            largeStorageDraws largeAppDraws).recommendations,
          rec.action = "Review " ++ app.name ++ " storage" ∧
          rec.savings_gb = app.cache_size + app.documents_size) := by
  refine ⟨by decide, by decide, by decide, by decide⟩

/-- Witness for C7 at a concrete run with a nonempty large-app list. -/
theorem storage_large_apps_spec_witness :
    ({ severity := "medium", type := "large_apps"
       message :=
         toString ((analyze_app_storage largeAppDraws).filter
           isLargeApp).length ++ " apps using over 2GB each"
       impact := "Significant storage consumption" } : StorIssue) ∈
      (identify_storage_issues "dev-7w" "2024-01-01T00:00:00"
        largeStorageDraws largeAppDraws).issues ∧
    ({ action := "Review " ++ (mkApp "Photos" "media" ⟨2.0, 1.0, 0.5, 0⟩).name
         ++ " storage"
       steps := ["Settings > General > iPhone Storage > " ++
           (mkApp "Photos" "media" ⟨2.0, 1.0, 0.5, 0⟩).name,
         "Consider offloading app or clearing cache"]
       savings_gb := roundTo 1
         ((mkApp "Photos" "media" ⟨2.0, 1.0, 0.5, 0⟩).cache_size +
           (mkApp "Photos" "media" ⟨2.0, 1.0, 0.5, 0⟩).documents_size) } :
      StorRec) ∈
      (identify_storage_issues "dev-7w" "2024-01-01T00:00:00"
        largeStorageDraws largeAppDraws).recommendations :=
  ⟨(storage_large_apps_spec "dev-7w" "2024-01-01T00:00:00" largeStorageDraws
      largeAppDraws).1 (by decide),
   (storage_large_apps_spec "dev-7w" "2024-01-01T00:00:00" largeStorageDraws
      largeAppDraws).2 (mkApp "Photos" "media" ⟨2.0, 1.0, 0.5, 0⟩) (by decide)⟩

end ConcreteEvaluation

end IosSupport
